import Mathlib

/-!
Verification development for magify.py, a batch tool that synchronizes a set
of map-template directories with a shared scripts tree and a base-assets tree,
and stamps the templates root with a version manifest.

The filesystem is embedded shallowly: an entry is a regular file with its
byte contents, or a directory with named children.  Directory children are an
association list from names to entries.  A real directory is an unordered map
with unique names, so the list order is an artifact of the model; statements
that need uniqueness of names assume `List.Nodup` on the name column, which
every real directory listing satisfies.

Operations are translated from magify.py:
* `build_template` embeds the function of the same name (lines 123-157):
  remove the pre-existing `Scripts` entry and copy the scripts root there,
  then overlay every top-level entry of the base-assets root.  Python error
  semantics is kept: `shutil.rmtree` on a regular file raises
  NotADirectoryError, `os.remove` on a directory raises IsADirectoryError and
  `distutils.dir_util.copy_tree` onto an existing regular file raises
  DistutilsFileError; each such uncaught exception aborts the run and is
  modelled as `none`.
* `get_scripts_last_commit` embeds lines 159-178 as a function of the raw
  stdout of the git subprocess; `sys.exit(1)` is modelled as `none`.
* `do_filesystem_checks` embeds lines 74-121 over the nine boolean
  filesystem facts it queries.
* `processTemplates` embeds the template discovery/build loop (lines
  206-220) and `main_run` the whole pipeline after argument parsing.
-/

namespace Magify

/-- A filesystem entry: a regular file with its contents (a character list;
file contents are opaque to the tool except for the manifest it writes), or
a directory with its named children. -/
inductive Entry where
  | file (content : List Char)
  | dir (children : List (String × Entry))

/-- Children of a directory: an association list from names to entries. -/
abbrev FsDir := List (String × Entry)

/-- `os.path.isdir` for an entry that exists. -/
def Entry.isDir : Entry → Bool
  | .dir _ => true
  | .file _ => false

/-- Look a name up among the children of a directory.  This models
`os.path.exists` / `os.path.isdir` / `os.path.isfile` on a child path:
`exists` is `isSome`, `isdir` asks for `some (.dir _)`,
`isfile` for `some (.file _)`. -/
def lookupE : FsDir → String → Option Entry
  | [], _ => none
  | (m, e) :: rest, n => if n = m then some e else lookupE rest n

/-- Create or replace the child of the given name.  Because a directory is an
unordered map, delete-then-recreate of a name (rmtree followed by copy_tree,
or os.remove followed by copyfile) has exactly this effect on the map. -/
def setE : FsDir → String → Entry → FsDir
  | [], n, e => [(n, e)]
  | (m, x) :: rest, n, e => if n = m then (n, e) :: rest else (m, x) :: setE rest n e

/-- Constant SCRIPTS_DIR of magify.py (line 31). -/
def SCRIPTS_DIR : String := "Scripts"

/-- Constant SCRIPTS_VERSION_FILE of magify.py (line 32). -/
def SCRIPTS_VERSION_FILE : String := "scripts_version.txt"

/-- One iteration of the base-assets loop of `build_template`
(magify.py lines 144-156) on the current template directory `t`:
for a source directory, an existing directory target is removed with
`shutil.rmtree` and then `copy_tree` recreates it, while an existing regular
file at the target makes `copy_tree` raise DistutilsFileError (modelled
`none`); for a source file, an existing file target is removed with
`os.remove` and the file copied with `shutil.copyfile`, while an existing
directory target makes `os.remove` raise IsADirectoryError (`none`). -/
def copyBaseEntry (t : FsDir) (name : String) (e : Entry) : Option FsDir :=
  match e, lookupE t name with
  | .dir _, some (.file _) => none
  | .dir _, some (.dir _) => some (setE t name e)
  | .dir _, none => some (setE t name e)
  | .file _, some (.dir _) => none
  | .file _, some (.file _) => some (setE t name e)
  | .file _, none => some (setE t name e)

/-- The base-assets loop of `build_template` (magify.py lines 144-156):
iterate over the listing of the base-assets root in order, overlaying each
entry onto the template directory. -/
def copyBase : FsDir → FsDir → Option FsDir
  | [], t => some t
  | (n, e) :: rest, t =>
    match copyBaseEntry t n e with
    | none => none
    | some t2 => copyBase rest t2

/-- `build_template` (magify.py lines 123-157), as a function of the children
of the scripts root, the children of the base-assets root and the children of
the template directory.  First the scripts step (lines 132-139): if the
`Scripts` child exists as a regular file, `shutil.rmtree` raises
NotADirectoryError (`none`); if it exists as a directory it is removed and
`copy_tree` recreates it from the scripts root; if absent, `copy_tree`
creates it.  Then the base-assets loop runs on the result. -/
def build_template (scriptsChildren : FsDir) (baseChildren : FsDir)
    (t : FsDir) : Option FsDir :=
  match lookupE t SCRIPTS_DIR with
  | some (.file _) => none
  | some (.dir _) => copyBase baseChildren (setE t SCRIPTS_DIR (.dir scriptsChildren))
  | none => copyBase baseChildren (setE t SCRIPTS_DIR (.dir scriptsChildren))

/-- Look up an entry at a relative path below a starting entry. -/
def lookupPath : Entry → List String → Option Entry
  | e, [] => some e
  | .dir d, n :: rest =>
    match lookupE d n with
    | some e => lookupPath e rest
    | none => none
  | .file _, _ :: _ => none

/-- The whitespace set stripped by the Python method `str.strip()`. -/
def isPySpace (c : Char) : Bool :=
  c = ' ' || c = '\t' || c = '\n' || c = '\x0d' || c = '\x0b' || c = '\x0c'

/-- Strip characters satisfying `p` from both ends of a string, as the
Python method `str.strip` with an argument does. -/
def stripBoth (p : Char → Bool) (s : List Char) : List Char :=
  ((s.dropWhile p).reverse.dropWhile p).reverse

/-- The Python call `.strip()`: strip whitespace from both ends. -/
def pyStrip (s : List Char) : List Char := stripBoth isPySpace s

/-- The Python call `.strip('"')`: strip double quotes from both ends. -/
def stripQuotes (s : List Char) : List Char := stripBoth (fun c => c = '"') s

/-- `get_scripts_last_commit` (magify.py lines 159-178) as a function of the
raw stdout of the git subprocess: decode, `.strip().strip('"')`, abort with
exit code 1 (modelled `none`) unless the result has exactly 25 characters,
otherwise return its first 10 characters. -/
def get_scripts_last_commit (stdout : List Char) : Option (List Char) :=
  let date := stripQuotes (pyStrip stdout)
  if date.length = 25 then some (date.take 10) else none

/-- Version resolution in main (magify.py lines 198-202).  The Python
condition `if args.scripts_version:` is truthiness: `None` and the empty
string both fall through to the git query. -/
def resolve_version (scripts_version : Option (List Char))
    (gitStdout : List Char) : Option (List Char) :=
  match scripts_version with
  | some v => if v.length = 0 then get_scripts_last_commit gitStdout else some v
  | none => get_scripts_last_commit gitStdout

/-- The nine filesystem facts queried by `do_filesystem_checks`
(magify.py lines 74-121), in the order the code queries them. -/
structure FSChecks where
  templates_isdir : Bool
  scripts_isdir : Bool
  base_isdir : Bool
  templates_git_isdir : Bool
  scripts_git_isdir : Bool
  base_textures_isdir : Bool
  base_description_isfile : Bool
  scripts_config_isfile : Bool
  scripts_armory_isdir : Bool

/-- The individual `logging.critical` messages of `do_filesystem_checks`,
one constructor per failed check; the f-string texts are in magify.py
lines 88, 99, 107, 110, 114 and 117. -/
inductive CheckMsg where
  | noTemplatesDir
  | noScriptsDir
  | noBaseDir
  | templatesNotGit
  | scriptsNotGit
  | noTextures
  | noDescriptionExt
  | noConfigCpp
  | noArmory
deriving DecidableEq

/-- First validation pass (magify.py lines 82-91): existence of the three
root directories, queried in the order templates, scripts, base. -/
def pass1_msgs (fs : FSChecks) : List CheckMsg :=
  (if fs.templates_isdir then [] else [.noTemplatesDir]) ++
  (if fs.scripts_isdir then [] else [.noScriptsDir]) ++
  (if fs.base_isdir then [] else [.noBaseDir])

/-- Second validation pass (magify.py lines 95-102): the templates and
scripts roots must contain a `.git` subdirectory. -/
def pass2_msgs (fs : FSChecks) : List CheckMsg :=
  (if fs.templates_git_isdir then [] else [.templatesNotGit]) ++
  (if fs.scripts_git_isdir then [] else [.scriptsNotGit])

/-- Third validation pass (magify.py lines 106-118): content markers,
queried in the order Textures, description.ext, config.cpp, Armory. -/
def pass3_msgs (fs : FSChecks) : List CheckMsg :=
  (if fs.base_textures_isdir then [] else [.noTextures]) ++
  (if fs.base_description_isfile then [] else [.noDescriptionExt]) ++
  (if fs.scripts_config_isfile then [] else [.noConfigCpp]) ++
  (if fs.scripts_armory_isdir then [] else [.noArmory])

/-- `do_filesystem_checks` (magify.py lines 74-121): runs a complete pass,
and calls `sys.exit(1)` after any pass that recorded an error.  The result
is the list of messages logged before the function returned or exited, and
`some 1` when the process exited with status 1 (`none` when the function
returned normally). -/
def do_filesystem_checks (fs : FSChecks) : List CheckMsg × Option Nat :=
  let e1 := pass1_msgs fs
  if e1.isEmpty then
    let e2 := pass2_msgs fs
    if e2.isEmpty then
      let e3 := pass3_msgs fs
      if e3.isEmpty then ([], none) else (e3, some 1)
    else (e2, some 1)
  else (e1, some 1)

/-- Severity of a per-entry diagnostic of the template discovery loop:
`logging.debug` (line 212) or `logging.warning` (line 215). -/
inductive Sev where
  | debug
  | warning
deriving DecidableEq

/-- The ignore list of the template discovery loop (magify.py line 207),
matched by exact string comparison. -/
def ignoredName (n : String) : Bool :=
  n = ".git" || n = ".gitignore" || n = "README.md"

/-- The check `os.path.isfile(os.path.join(tpath, 'mission.sqm'))`
(magify.py line 214) on the children of a template directory. -/
def hasMissionFile (d : FsDir) : Bool :=
  match lookupE d "mission.sqm" with
  | some (.file _) => true
  | _ => false

/-- The template discovery and build loop of main (magify.py lines 206-220)
over the listing of the templates root.  Each entry is kept unchanged when
it is an ignored name, a non-directory (logged at debug severity), or a
directory without a `mission.sqm` file (logged at warning severity); a valid
template directory is rebuilt with `build_template` and its name printed
(collected here in order).  A failure inside `build_template` is an uncaught
exception that aborts the whole run (`none`).  The result is the updated
listing, the names built, and the diagnostics in emission order. -/
def processTemplates (sc b : FsDir) :
    List (String × Entry) → Option (List (String × Entry) × List String × List (Sev × String))
  | [] => some ([], [], [])
  | (n, e) :: rest =>
    if ignoredName n then
      match processTemplates sc b rest with
      | none => none
      | some (r, ns, ls) => some ((n, e) :: r, ns, ls)
    else
      match e with
      | .file c =>
        match processTemplates sc b rest with
        | none => none
        | some (r, ns, ls) => some ((n, .file c) :: r, ns, (Sev.debug, n) :: ls)
      | .dir d =>
        if hasMissionFile d then
          match build_template sc b d with
          | none => none
          | some d2 =>
            match processTemplates sc b rest with
            | none => none
            | some (r, ns, ls) => some ((n, .dir d2) :: r, n :: ns, ls)
        else
          match processTemplates sc b rest with
          | none => none
          | some (r, ns, ls) => some ((n, .dir d) :: r, ns, (Sev.warning, n) :: ls)

/-- A valid template entry of the templates root: not an ignored name, a
directory, and containing a `mission.sqm` file. -/
def validTemplate (p : String × Entry) : Bool :=
  !ignoredName p.1 &&
    (match p.2 with
     | .dir d => hasMissionFile d
     | .file _ => false)

/-- Content of the version manifest written by main
(magify.py lines 225-227): the fixed header line, then the resolved version
label on its own line. -/
def manifestContent (ver : List Char) : List Char :=
  "Templates were created with the following scripts version:\n".toList ++ ver ++ ['\n']

/-- The pipeline of main after argument parsing (magify.py lines 194-228):
filesystem checks, version resolution, the template loop, and finally the
write of `scripts_version.txt` into the templates root, overwriting any
existing entry of that name.  Any `sys.exit(1)` or uncaught exception along
the way aborts the run (`none`); on success the result is the final listing
of the templates root, the names of the built templates, and the loop
diagnostics. -/
def main_run (fs : FSChecks) (scripts_version : Option (List Char))
    (gitStdout : List Char) (sc b : FsDir) (tc : List (String × Entry)) :
    Option (List (String × Entry) × List String × List (Sev × String)) :=
  match (do_filesystem_checks fs).2 with
  | some _ => none
  | none =>
    match resolve_version scripts_version gitStdout with
    | none => none
    | some ver =>
      match processTemplates sc b tc with
      | none => none
      | some (tc2, built, logs) =>
        some (setE tc2 SCRIPTS_VERSION_FILE (.file (manifestContent ver)), built, logs)

/-- The version resolver as claim C4 words it, for comparison with the
embedded `get_scripts_last_commit`: there the 25-character length test is
applied to the raw output after trimming the trailing whitespace only, with
the two quotes still counted; on success the first 10 characters of the
dequoted date are returned. -/
def get_scripts_last_commit_as_claimed (stdout : List Char) : Option (List Char) :=
  let s := (stdout.reverse.dropWhile isPySpace).reverse
  if s.length = 25 then some ((stripQuotes s).take 10) else none

/-- Messages logged by `do_filesystem_checks` before it returned or exited. -/
def checksLog (fs : FSChecks) : List CheckMsg := (do_filesystem_checks fs).1

/-- Exit status of `do_filesystem_checks`: `some 1` when the process exited. -/
def checksExit (fs : FSChecks) : Option Nat := (do_filesystem_checks fs).2

theorem lookupE_setE_self (t : FsDir) (n : String) (e : Entry) :
    lookupE (setE t n e) n = some e := by
  induction t with
  | nil => simp [setE, lookupE]
  | cons p rest ih =>
    obtain ⟨m, x⟩ := p
    by_cases h : n = m
    · simp [setE, h, lookupE]
    · simp [setE, h, lookupE, ih]

theorem lookupE_setE_ne (t : FsDir) (n m : String) (e : Entry) (h : m ≠ n) :
    lookupE (setE t n e) m = lookupE t m := by
  induction t with
  | nil => simp [setE, lookupE, h]
  | cons p rest ih =>
    obtain ⟨k, x⟩ := p
    by_cases hk : n = k
    · subst hk
      simp [setE, lookupE, h]
    · by_cases hmk : m = k
      · simp [setE, hk, lookupE, hmk]
      · simp [setE, hk, lookupE, hmk, ih]

theorem setE_id (t : FsDir) (n : String) (e : Entry)
    (h : lookupE t n = some e) : setE t n e = t := by
  induction t with
  | nil => simp [lookupE] at h
  | cons p rest ih =>
    obtain ⟨k, x⟩ := p
    by_cases hk : n = k
    · subst hk
      simp [lookupE] at h
      simp [setE, h]
    · simp [lookupE, hk] at h
      simp [setE, hk, ih h]

theorem setE_setE_same (t : FsDir) (n : String) (y e : Entry) :
    setE (setE t n y) n e = setE t n e := by
  induction t with
  | nil => simp [setE]
  | cons p rest ih =>
    obtain ⟨k, x⟩ := p
    by_cases hk : n = k
    · simp [setE, hk]
    · simp [setE, hk, ih]

theorem copyBaseEntry_eq_setE (t : FsDir) (n : String) (e : Entry) (t2 : FsDir)
    (h : copyBaseEntry t n e = some t2) : t2 = setE t n e := by
  cases e with
  | file c =>
    cases hl : lookupE t n with
    | none => simp [copyBaseEntry, hl] at h; exact h.symm
    | some x =>
      cases x with
      | file c2 => simp [copyBaseEntry, hl] at h; exact h.symm
      | dir d2 => simp [copyBaseEntry, hl] at h
  | dir d =>
    cases hl : lookupE t n with
    | none => simp [copyBaseEntry, hl] at h; exact h.symm
    | some x =>
      cases x with
      | file c2 => simp [copyBaseEntry, hl] at h
      | dir d2 => simp [copyBaseEntry, hl] at h; exact h.symm

theorem copyBaseEntry_compat (t : FsDir) (n : String) (e : Entry) (t2 : FsDir)
    (x : Entry) (h : copyBaseEntry t n e = some t2)
    (hl : lookupE t n = some x) : x.isDir = e.isDir := by
  cases e with
  | file c =>
    cases x with
    | file c2 => rfl
    | dir d2 => simp [copyBaseEntry, hl] at h
  | dir d =>
    cases x with
    | file c2 => simp [copyBaseEntry, hl] at h
    | dir d2 => rfl

theorem copyBaseEntry_of_compat (t : FsDir) (n : String) (e x : Entry)
    (hl : lookupE t n = some x) (hc : x.isDir = e.isDir) :
    copyBaseEntry t n e = some (setE t n e) := by
  cases e with
  | file c =>
    cases x with
    | file c2 => simp [copyBaseEntry, hl]
    | dir d2 => simp [Entry.isDir] at hc
  | dir d =>
    cases x with
    | file c2 => simp [Entry.isDir] at hc
    | dir d2 => simp [copyBaseEntry, hl]

/-- Frame property of the base-assets loop: a name that does not occur in the
base listing keeps its binding. -/
theorem copyBase_frame (b : FsDir) (t t2 : FsDir) (n : String)
    (hn : n ∉ b.map Prod.fst) (h : copyBase b t = some t2) :
    lookupE t2 n = lookupE t n := by
  induction b generalizing t with
  | nil => simp [copyBase] at h; rw [h]
  | cons p rest ih =>
    obtain ⟨m, e⟩ := p
    simp only [List.map_cons, List.mem_cons] at hn
    push_neg at hn
    cases hce : copyBaseEntry t m e with
    | none => simp [copyBase, hce] at h
    | some u =>
      simp only [copyBase, hce] at h
      have hu := copyBaseEntry_eq_setE t m e u hce
      subst hu
      rw [ih _ hn.2 h, lookupE_setE_ne t m n e hn.1]

/-- After a successful base-assets loop over a duplicate-free listing, every
listed entry is bound to the source entry. -/
theorem copyBase_mem (b : FsDir) (t t2 : FsDir) (n : String) (e : Entry)
    (hnd : (b.map Prod.fst).Nodup) (h : copyBase b t = some t2)
    (hm : (n, e) ∈ b) : lookupE t2 n = some e := by
  induction b generalizing t with
  | nil => simp at hm
  | cons p rest ih =>
    obtain ⟨m, x⟩ := p
    simp only [List.map_cons, List.nodup_cons] at hnd
    cases hce : copyBaseEntry t m x with
    | none => simp [copyBase, hce] at h
    | some u =>
      simp only [copyBase, hce] at h
      have hu := copyBaseEntry_eq_setE t m x u hce
      subst hu
      rcases List.mem_cons.mp hm with heq | hmem
      · cases heq
        rw [copyBase_frame rest _ _ n hnd.1 h, lookupE_setE_self]
      · exact ih _ hnd.2 h hmem

/-- During a successful base-assets loop over a duplicate-free listing, a
pre-existing entry at a listed name has the same kind (file or directory) as
the listed source entry: otherwise the loop would have raised. -/
theorem copyBase_compat (b : FsDir) (t t2 : FsDir) (n : String) (e x : Entry)
    (hnd : (b.map Prod.fst).Nodup) (h : copyBase b t = some t2)
    (hm : (n, e) ∈ b) (hl : lookupE t n = some x) : x.isDir = e.isDir := by
  induction b generalizing t with
  | nil => simp at hm
  | cons p rest ih =>
    obtain ⟨m, y⟩ := p
    simp only [List.map_cons, List.nodup_cons] at hnd
    cases hce : copyBaseEntry t m y with
    | none => simp [copyBase, hce] at h
    | some u =>
      simp only [copyBase, hce] at h
      have hu := copyBaseEntry_eq_setE t m y u hce
      rcases List.mem_cons.mp hm with heq | hmem
      · cases heq
        exact copyBaseEntry_compat t n e u x hce hl
      · have hnm : n ≠ m := by
          intro hcontra
          exact hnd.1 (hcontra ▸ (List.mem_map.mpr ⟨(n, e), hmem, rfl⟩))
        have hlu : lookupE u n = some x := by
          rw [hu, lookupE_setE_ne t m n y hnm, hl]
        exact ih u hnd.2 h hmem hlu

/-- Re-running the base-assets loop on its own successful result changes
nothing: every listed name is already bound to the source entry. -/
theorem copyBase_rerun (b : FsDir) (t t2 : FsDir)
    (hnd : (b.map Prod.fst).Nodup) (h : copyBase b t = some t2) :
    copyBase b t2 = some t2 := by
  induction b generalizing t with
  | nil => simp [copyBase]
  | cons p rest ih =>
    obtain ⟨n, e⟩ := p
    simp only [List.map_cons, List.nodup_cons] at hnd
    cases hce : copyBaseEntry t n e with
    | none => simp [copyBase, hce] at h
    | some u =>
      simp only [copyBase, hce] at h
      have hu := copyBaseEntry_eq_setE t n e u hce
      subst hu
      have hl2 : lookupE t2 n = some e := by
        rw [copyBase_frame rest _ _ n hnd.1 h, lookupE_setE_self]
      have hstep : copyBaseEntry t2 n e = some (setE t2 n e) :=
        copyBaseEntry_of_compat t2 n e e hl2 rfl
      rw [setE_id t2 n e hl2] at hstep
      simp only [copyBase, hstep]
      exact ih _ hnd.2 h

/-- Re-running the base-assets loop after one listed name was rebound to an
entry of the same kind restores the original result: the loop overwrites
that name again with the listed source entry. -/
theorem copyBase_rerun_setE (b : FsDir) (t t2 : FsDir) (m : String)
    (y e0 : Entry) (hc : e0.isDir = y.isDir)
    (hnd : (b.map Prod.fst).Nodup) (hm : (m, e0) ∈ b)
    (h : copyBase b t = some t2) :
    copyBase b (setE t2 m y) = some t2 := by
  induction b generalizing t with
  | nil => simp at hm
  | cons p rest ih =>
    obtain ⟨n, en⟩ := p
    simp only [List.map_cons, List.nodup_cons] at hnd
    cases hce : copyBaseEntry t n en with
    | none => simp [copyBase, hce] at h
    | some u =>
      simp only [copyBase, hce] at h
      have hu := copyBaseEntry_eq_setE t n en u hce
      subst hu
      have hl2 : lookupE t2 n = some en := by
        rw [copyBase_frame rest _ _ n hnd.1 h, lookupE_setE_self]
      rcases List.mem_cons.mp hm with heq | hmem
      · rw [Prod.mk.injEq] at heq
        obtain ⟨rfl, rfl⟩ := heq
        have hly : lookupE (setE t2 m y) m = some y := lookupE_setE_self t2 m y
        have hstep : copyBaseEntry (setE t2 m y) m e0 =
            some (setE (setE t2 m y) m e0) :=
          copyBaseEntry_of_compat (setE t2 m y) m e0 y hly hc.symm
        rw [setE_setE_same, setE_id t2 m e0 hl2] at hstep
        simp only [copyBase, hstep]
        exact copyBase_rerun rest _ _ hnd.2 h
      · have hnm : n ≠ m := by
          intro hcontra
          subst hcontra
          exact hnd.1 (List.mem_map.mpr ⟨(n, e0), hmem, rfl⟩)
        have hl3 : lookupE (setE t2 m y) n = some en := by
          rw [lookupE_setE_ne t2 m n y hnm]
          exact hl2
        have hstep : copyBaseEntry (setE t2 m y) n en =
            some (setE (setE t2 m y) n en) :=
          copyBaseEntry_of_compat (setE t2 m y) n en en hl3 rfl
        rw [setE_id (setE t2 m y) n en hl3] at hstep
        simp only [copyBase, hstep]
        exact ih _ hnd.2 hmem h

/-- A successful `build_template` run is the base-assets loop applied to the
template with its `Scripts` child replaced by a copy of the scripts root. -/
theorem build_template_some (sc b t t2 : FsDir)
    (h : build_template sc b t = some t2) :
    copyBase b (setE t SCRIPTS_DIR (Entry.dir sc)) = some t2 := by
  cases hl : lookupE t SCRIPTS_DIR with
  | none => simpa [build_template, hl] using h
  | some x =>
    cases x with
    | file c => simp [build_template, hl] at h
    | dir d => simpa [build_template, hl] using h

/-- C1 counterexample: the claim promises the post-state for every
pre-existing state of a base-entry name, including a type mismatch, but
when the base-assets root holds the file `description.ext` and the template
already has a directory of that name, `copy_tree` is never reached:
`os.remove` on the directory raises IsADirectoryError and the run aborts,
so no post-state satisfying the claim exists. -/
theorem C1_counterexample :
    build_template [] [("description.ext", Entry.file ['A'])]
      [("description.ext", Entry.dir [])] = none := rfl

/-- C1 (amended): for every top-level entry of the base-assets root, after a
synchronization that completes (the run aborts with an uncaught exception
when a pre-existing same-named entry has the other type, or when a regular
file pre-exists at the `Scripts` path), the template entry of that name is
structurally and byte-identical to the source entry; the hypothesis
`List.Nodup` states that the base listing has no duplicate names, which is
true of every real directory. -/
theorem C1_base_entries_identical (sc b t t2 : FsDir)
    (hnd : (b.map Prod.fst).Nodup) (h : build_template sc b t = some t2) :
    ∀ n e, (n, e) ∈ b → lookupE t2 n = some e := by
  intro n e hm
  exact copyBase_mem b _ t2 n e hnd (build_template_some sc b t t2 h) hm

/-- Witness for C1: a concrete run in which a pre-existing file
`description.ext` is replaced by the base-assets copy. -/
theorem C1_witness :
    lookupE [("description.ext", Entry.file ['a']), (SCRIPTS_DIR, Entry.dir []),
      ("Textures", Entry.dir [])] "description.ext" = some (Entry.file ['a']) :=
  C1_base_entries_identical []
    [("Textures", Entry.dir []), ("description.ext", Entry.file ['a'])]
    [("description.ext", Entry.file ['z'])] _ (by decide) rfl
    "description.ext" (Entry.file ['a'])
    (List.mem_cons_of_mem _ (List.mem_cons_self _ _))

/-- C2 counterexample, two parts.  Part 1: with a pre-existing regular file
at the `Scripts` path, nothing is deleted or copied: `shutil.rmtree` raises
NotADirectoryError and the run aborts, against the claim that a file there
is deleted and replaced.  Part 2: when the base-assets root itself holds an
entry named `Scripts`, the run completes but the final `Scripts` subtree is
the base-assets entry, not the scripts root: the file `a` of the scripts
root is absent from it. -/
theorem C2_counterexample :
    build_template [("a", Entry.file ['x'])] [] [(SCRIPTS_DIR, Entry.file [])] = none
    ∧ build_template [("a", Entry.file ['x'])]
        [(SCRIPTS_DIR, Entry.dir [("b", Entry.file ['y'])])] []
        = some [(SCRIPTS_DIR, Entry.dir [("b", Entry.file ['y'])])]
    ∧ lookupPath (Entry.dir [(SCRIPTS_DIR, Entry.dir [("b", Entry.file ['y'])])])
        [SCRIPTS_DIR, "a"] = none
    ∧ lookupE [("a", Entry.file ['x'])] "a" = some (Entry.file ['x']) :=
  ⟨rfl, rfl, rfl, rfl⟩

/-- C2 (amended): whenever the synchronization completes (a pre-existing
regular file at the `Scripts` path aborts the run instead of being deleted)
and the base-assets root has no top-level entry named `Scripts` (such an
entry would be overlaid after the scripts copy), the `Scripts` subtree of
the template is identical in structure and content to the scripts root, so
no file absent from the current scripts root survives from a previous
run. -/
theorem C2_scripts_subtree_identical (sc b t t2 : FsDir)
    (hb : SCRIPTS_DIR ∉ b.map Prod.fst)
    (h : build_template sc b t = some t2) :
    lookupE t2 SCRIPTS_DIR = some (Entry.dir sc) := by
  rw [copyBase_frame b _ t2 SCRIPTS_DIR hb (build_template_some sc b t t2 h),
    lookupE_setE_self]

/-- Witness for C2: a concrete run in which a stale `Scripts` directory is
replaced by the scripts root. -/
theorem C2_witness :
    lookupE [(SCRIPTS_DIR, Entry.dir [("x", Entry.file [])])] SCRIPTS_DIR
      = some (Entry.dir [("x", Entry.file [])]) :=
  C2_scripts_subtree_identical [("x", Entry.file [])] []
    [(SCRIPTS_DIR, Entry.dir [("old", Entry.file [])])] _ (by simp) rfl

/-- C9: frame property of the synchronizer.  A successful `build_template`
changes only the `Scripts` child and the children whose names occur in the
base-assets root; every other child keeps its exact entry.  The model makes
`build_template` a function of the template directory alone, which is the
source fact that it writes nowhere outside the template directory. -/
theorem C9_untouched_entries (sc b t t2 : FsDir) (n : String)
    (hs : n ≠ SCRIPTS_DIR) (hb : n ∉ b.map Prod.fst)
    (h : build_template sc b t = some t2) :
    lookupE t2 n = lookupE t n := by
  rw [copyBase_frame b _ t2 n hb (build_template_some sc b t t2 h),
    lookupE_setE_ne t SCRIPTS_DIR n (Entry.dir sc) hs]

/-- Witness for C9: `mission.sqm` is untouched by a concrete run. -/
theorem C9_witness :
    lookupE [("mission.sqm", Entry.file ['m']), (SCRIPTS_DIR, Entry.dir []),
        ("Textures", Entry.dir [])] "mission.sqm"
      = lookupE [("mission.sqm", Entry.file ['m'])] "mission.sqm" :=
  C9_untouched_entries [] [("Textures", Entry.dir [])]
    [("mission.sqm", Entry.file ['m'])] _ "mission.sqm"
    (by decide) (by decide) rfl

/-- C10 counterexample: when the base-assets root itself holds an entry
named `Scripts`, the scripts copy does run unfiltered but is then overlaid
by the base-assets entry, and `<Template>/Scripts/.git` does not exist after
a successful synchronization even though the scripts root has a `.git`
directory. -/
theorem C10_counterexample :
    build_template [(".git", Entry.dir [])] [(SCRIPTS_DIR, Entry.dir [])] []
      = some [(SCRIPTS_DIR, Entry.dir [])]
    ∧ lookupPath (Entry.dir [(SCRIPTS_DIR, Entry.dir [])]) [SCRIPTS_DIR, ".git"]
      = none :=
  ⟨rfl, rfl⟩

/-- C10 (amended): provided the base-assets root has no top-level entry
named `Scripts`, the scripts copy applies no filtering: the `Scripts`
subtree of every successfully synchronized template equals the scripts root
entry for entry, and in particular, when the scripts root has a `.git`
directory (which the validator guaranteed), the path
`<Template>/Scripts/.git` exists as a directory afterwards. -/
theorem C10_git_dir_copied (sc b t t2 g : FsDir)
    (hb : SCRIPTS_DIR ∉ b.map Prod.fst)
    (hgit : lookupE sc ".git" = some (Entry.dir g))
    (h : build_template sc b t = some t2) :
    lookupE t2 SCRIPTS_DIR = some (Entry.dir sc)
    ∧ lookupPath (Entry.dir t2) [SCRIPTS_DIR, ".git"] = some (Entry.dir g) := by
  have hs : lookupE t2 SCRIPTS_DIR = some (Entry.dir sc) := by
    rw [copyBase_frame b _ t2 SCRIPTS_DIR hb (build_template_some sc b t t2 h),
      lookupE_setE_self]
  refine ⟨hs, ?_⟩
  simp [lookupPath, hs, hgit]

/-- Witness for C10: a concrete run in which `.git` of the scripts root ends
up below the `Scripts` subtree of the template. -/
theorem C10_witness :
    lookupE [(SCRIPTS_DIR, Entry.dir [(".git", Entry.dir [("HEAD", Entry.file ['h'])])]),
        ("Textures", Entry.dir [])] SCRIPTS_DIR
      = some (Entry.dir [(".git", Entry.dir [("HEAD", Entry.file ['h'])])])
    ∧ lookupPath
        (Entry.dir [(SCRIPTS_DIR, Entry.dir [(".git", Entry.dir [("HEAD", Entry.file ['h'])])]),
          ("Textures", Entry.dir [])])
        [SCRIPTS_DIR, ".git"] = some (Entry.dir [("HEAD", Entry.file ['h'])]) :=
  C10_git_dir_copied [(".git", Entry.dir [("HEAD", Entry.file ['h'])])]
    [("Textures", Entry.dir [])] [] _ [("HEAD", Entry.file ['h'])]
    (by decide) rfl rfl

/-- C3: idempotence.  Re-running `build_template` on its own successful
result, with unchanged scripts root and base-assets root, succeeds and
returns the same template state, so the second run makes no change.  The
`List.Nodup` hypothesis states that the base listing has no duplicate
names, true of every real directory. -/
theorem C3_idempotent (sc b t t2 : FsDir)
    (hnd : (b.map Prod.fst).Nodup) (h : build_template sc b t = some t2) :
    build_template sc b t2 = some t2 := by
  have h1 := build_template_some sc b t t2 h
  by_cases hmem : SCRIPTS_DIR ∈ b.map Prod.fst
  · obtain ⟨p, hp, hfst⟩ := List.mem_map.mp hmem
    obtain ⟨m, e0⟩ := p
    have hm : m = SCRIPTS_DIR := hfst
    subst hm
    have hl2 : lookupE t2 SCRIPTS_DIR = some e0 :=
      copyBase_mem b _ t2 SCRIPTS_DIR e0 hnd h1 hp
    have hcompat : (Entry.dir sc).isDir = e0.isDir :=
      copyBase_compat b _ t2 SCRIPTS_DIR e0 (Entry.dir sc) hnd h1 hp
        (lookupE_setE_self t SCRIPTS_DIR (Entry.dir sc))
    cases e0 with
    | file c => simp [Entry.isDir] at hcompat
    | dir d =>
      simp only [build_template, hl2]
      exact copyBase_rerun_setE b _ t2 SCRIPTS_DIR (Entry.dir sc) (Entry.dir d)
        rfl hnd hp h1
  · have hl2 : lookupE t2 SCRIPTS_DIR = some (Entry.dir sc) := by
      rw [copyBase_frame b _ t2 SCRIPTS_DIR hmem h1, lookupE_setE_self]
    simp only [build_template, hl2]
    rw [setE_id t2 SCRIPTS_DIR (Entry.dir sc) hl2]
    exact copyBase_rerun b _ t2 hnd h1

/-- Witness for C3: a second concrete run reproduces the first result. -/
theorem C3_witness :
    build_template [("a", Entry.file ['p'])] [("b", Entry.file ['q'])]
      [(SCRIPTS_DIR, Entry.dir [("a", Entry.file ['p'])]), ("b", Entry.file ['q'])]
    = some [(SCRIPTS_DIR, Entry.dir [("a", Entry.file ['p'])]), ("b", Entry.file ['q'])] :=
  C3_idempotent [("a", Entry.file ['p'])] [("b", Entry.file ['q'])] [] _
    (by decide) rfl

/-- C4 counterexample: on the genuine git output shape, a quoted ISO-8601
date-time with offset followed by a newline, the string with trailing
whitespace trimmed has 27 characters (25 visible plus the two quotes), so
the claim as stated would abort; the code instead strips the quotes before
the length test, accepts the 25-character dequoted string and returns its
first 10 characters. -/
theorem C4_counterexample :
    get_scripts_last_commit ("\"2025-01-02T03:04:05+06:00\"\n".toList)
      = some ("2025-01-02".toList)
    ∧ get_scripts_last_commit_as_claimed ("\"2025-01-02T03:04:05+06:00\"\n".toList)
      = none
    ∧ ((("\"2025-01-02T03:04:05+06:00\"\n".toList).reverse.dropWhile isPySpace).reverse).length
      = 27 :=
  ⟨rfl, rfl, rfl⟩

/-- C4 (amended): the resolver applies the 25-character test to the raw VCS
output after trimming surrounding whitespace and stripping the surrounding
quotes; it aborts the run (exit code 1) exactly when that dequoted string
is not 25 characters long, and otherwise returns its first 10 characters as
the version label. -/
theorem C4_length_check_after_dequote (stdout : List Char) :
    (get_scripts_last_commit stdout = none ↔
      (stripQuotes (pyStrip stdout)).length ≠ 25)
    ∧ ∀ out, get_scripts_last_commit stdout = some out →
        out = (stripQuotes (pyStrip stdout)).take 10 := by
  constructor
  · by_cases hl : (stripQuotes (pyStrip stdout)).length = 25 <;>
      simp [get_scripts_last_commit, hl]
  · intro out h
    by_cases hl : (stripQuotes (pyStrip stdout)).length = 25
    · simp [get_scripts_last_commit, hl] at h
      exact h.symm
    · simp [get_scripts_last_commit, hl] at h

/-- Witness for C4: the genuine git output shape resolves to its first ten
dequoted characters. -/
theorem C4_witness :
    "2025-01-02".toList
      = (stripQuotes (pyStrip ("\"2025-01-02T03:04:05+06:00\"\n".toList))).take 10 :=
  (C4_length_check_after_dequote ("\"2025-01-02T03:04:05+06:00\"\n".toList)).2
    ("2025-01-02".toList) rfl

/-- C5 counterexample: an empty manual version string is supplied but not
used: the Python condition `if args.scripts_version:` is falsy on the empty
string, so the VCS query runs and its result, not the supplied string,
becomes the version label. -/
theorem C5_counterexample :
    resolve_version (some []) ("\"2025-01-02T03:04:05+06:00\"\n".toList)
      = get_scripts_last_commit ("\"2025-01-02T03:04:05+06:00\"\n".toList)
    ∧ resolve_version (some []) ("\"2025-01-02T03:04:05+06:00\"\n".toList)
      ≠ some [] :=
  ⟨rfl, by decide⟩

/-- C5 (amended): every non-empty supplied manual version string is used
verbatim as the version label, with no validation; the label is the same
for every possible VCS output, i.e. no VCS query influences it. -/
theorem C5_nonempty_manual_verbatim (v git : List Char) (hv : v ≠ []) :
    resolve_version (some v) git = some v := by
  cases v with
  | nil => exact absurd rfl hv
  | cons c cs => simp [resolve_version]

/-- Witness for C5: a concrete manual version is used verbatim. -/
theorem C5_witness : resolve_version (some ['2']) [] = some ['2'] :=
  C5_nonempty_manual_verbatim ['2'] [] (by decide)

set_option maxHeartbeats 2000000 in
set_option synthInstance.maxHeartbeats 2000000 in
set_option synthInstance.maxSize 40000 in
/-- C6: the path validator runs as three complete passes over the nine
filesystem facts it queries.  For every combination of those facts: the run
proceeds exactly when all nine checks pass; if any existence check fails,
the process exits with status 1 having reported each failing existence
check individually and nothing from the later passes; if the existence pass
is clean and a VCS check fails, it exits with status 1 having reported each
failing VCS check individually and nothing from the content pass; if only
content checks fail, it exits with status 1 having reported each failing
content check individually.  Second conjunct: whenever the validator exits,
the whole run produces nothing — no template is built and no manifest is
written. -/
theorem C6_three_pass_validator :
    (∀ a1 a2 a3 g1 g2 c1 c2 c3 c4 : Bool,
      (checksExit ⟨a1, a2, a3, g1, g2, c1, c2, c3, c4⟩ = none ↔
        (a1 && a2 && a3 && g1 && g2 && c1 && c2 && c3 && c4) = true)
      ∧ ((a1 && a2 && a3) = false →
          checksExit ⟨a1, a2, a3, g1, g2, c1, c2, c3, c4⟩ = some 1
          ∧ (CheckMsg.noTemplatesDir ∈ checksLog ⟨a1, a2, a3, g1, g2, c1, c2, c3, c4⟩ ↔ a1 = false)
          ∧ (CheckMsg.noScriptsDir ∈ checksLog ⟨a1, a2, a3, g1, g2, c1, c2, c3, c4⟩ ↔ a2 = false)
          ∧ (CheckMsg.noBaseDir ∈ checksLog ⟨a1, a2, a3, g1, g2, c1, c2, c3, c4⟩ ↔ a3 = false)
          ∧ CheckMsg.templatesNotGit ∉ checksLog ⟨a1, a2, a3, g1, g2, c1, c2, c3, c4⟩
          ∧ CheckMsg.scriptsNotGit ∉ checksLog ⟨a1, a2, a3, g1, g2, c1, c2, c3, c4⟩
          ∧ CheckMsg.noTextures ∉ checksLog ⟨a1, a2, a3, g1, g2, c1, c2, c3, c4⟩
          ∧ CheckMsg.noDescriptionExt ∉ checksLog ⟨a1, a2, a3, g1, g2, c1, c2, c3, c4⟩
          ∧ CheckMsg.noConfigCpp ∉ checksLog ⟨a1, a2, a3, g1, g2, c1, c2, c3, c4⟩
          ∧ CheckMsg.noArmory ∉ checksLog ⟨a1, a2, a3, g1, g2, c1, c2, c3, c4⟩)
      ∧ ((a1 && a2 && a3) = true → (g1 && g2) = false →
          checksExit ⟨a1, a2, a3, g1, g2, c1, c2, c3, c4⟩ = some 1
          ∧ (CheckMsg.templatesNotGit ∈ checksLog ⟨a1, a2, a3, g1, g2, c1, c2, c3, c4⟩ ↔ g1 = false)
          ∧ (CheckMsg.scriptsNotGit ∈ checksLog ⟨a1, a2, a3, g1, g2, c1, c2, c3, c4⟩ ↔ g2 = false)
          ∧ CheckMsg.noTemplatesDir ∉ checksLog ⟨a1, a2, a3, g1, g2, c1, c2, c3, c4⟩
          ∧ CheckMsg.noScriptsDir ∉ checksLog ⟨a1, a2, a3, g1, g2, c1, c2, c3, c4⟩
          ∧ CheckMsg.noBaseDir ∉ checksLog ⟨a1, a2, a3, g1, g2, c1, c2, c3, c4⟩
          ∧ CheckMsg.noTextures ∉ checksLog ⟨a1, a2, a3, g1, g2, c1, c2, c3, c4⟩
          ∧ CheckMsg.noDescriptionExt ∉ checksLog ⟨a1, a2, a3, g1, g2, c1, c2, c3, c4⟩
          ∧ CheckMsg.noConfigCpp ∉ checksLog ⟨a1, a2, a3, g1, g2, c1, c2, c3, c4⟩
          ∧ CheckMsg.noArmory ∉ checksLog ⟨a1, a2, a3, g1, g2, c1, c2, c3, c4⟩)
      ∧ ((a1 && a2 && a3) = true → (g1 && g2) = true → (c1 && c2 && c3 && c4) = false →
          checksExit ⟨a1, a2, a3, g1, g2, c1, c2, c3, c4⟩ = some 1
          ∧ (CheckMsg.noTextures ∈ checksLog ⟨a1, a2, a3, g1, g2, c1, c2, c3, c4⟩ ↔ c1 = false)
          ∧ (CheckMsg.noDescriptionExt ∈ checksLog ⟨a1, a2, a3, g1, g2, c1, c2, c3, c4⟩ ↔ c2 = false)
          ∧ (CheckMsg.noConfigCpp ∈ checksLog ⟨a1, a2, a3, g1, g2, c1, c2, c3, c4⟩ ↔ c3 = false)
          ∧ (CheckMsg.noArmory ∈ checksLog ⟨a1, a2, a3, g1, g2, c1, c2, c3, c4⟩ ↔ c4 = false)
          ∧ CheckMsg.noTemplatesDir ∉ checksLog ⟨a1, a2, a3, g1, g2, c1, c2, c3, c4⟩
          ∧ CheckMsg.noScriptsDir ∉ checksLog ⟨a1, a2, a3, g1, g2, c1, c2, c3, c4⟩
          ∧ CheckMsg.noBaseDir ∉ checksLog ⟨a1, a2, a3, g1, g2, c1, c2, c3, c4⟩
          ∧ CheckMsg.templatesNotGit ∉ checksLog ⟨a1, a2, a3, g1, g2, c1, c2, c3, c4⟩
          ∧ CheckMsg.scriptsNotGit ∉ checksLog ⟨a1, a2, a3, g1, g2, c1, c2, c3, c4⟩))
    ∧ (∀ (fs : FSChecks) (mv : Option (List Char)) (git : List Char)
        (sc b : FsDir) (tc : List (String × Entry)),
        checksExit fs = some 1 → main_run fs mv git sc b tc = none) := by
  constructor
  · decide
  · intro fs mv git sc b tc h
    simp only [checksExit] at h
    simp [main_run, h]

/-- Witness for C6: with the base-files directory missing, the process exits
with status 1 and the run writes nothing. -/
theorem C6_witness :
    checksExit ⟨true, true, false, true, true, true, true, true, true⟩ = some 1
    ∧ (CheckMsg.noBaseDir ∈
        checksLog ⟨true, true, false, true, true, true, true, true, true⟩)
    ∧ main_run ⟨true, true, false, true, true, true, true, true, true⟩
        none [] [] [] [] = none := by
  have hpass :=
    (C6_three_pass_validator.1 true true false true true true true true true).2.1 rfl
  exact ⟨hpass.1, (hpass.2.2.2.1).mpr rfl,
    C6_three_pass_validator.2 _ none [] [] [] [] hpass.1⟩

/-- C7: template discovery.  When the discovery and build loop completes,
the built (yielded) templates are exactly the top-level entries of the
templates root that are not named `.git`, `.gitignore` or `README.md`
(exact string match), are directories, and contain a `mission.sqm` file; a
non-ignored non-directory produces a debug-severity diagnostic and a
non-ignored directory without the marker produces a warning, and in both
cases the loop continues with the remaining entries instead of failing. -/
theorem C7_template_discovery (sc b : FsDir) (tc tc2 : List (String × Entry))
    (built : List String) (logs : List (Sev × String))
    (h : processTemplates sc b tc = some (tc2, built, logs)) :
    built = (tc.filter validTemplate).map Prod.fst
    ∧ (∀ n c, (n, Entry.file c) ∈ tc → ignoredName n = false →
        (Sev.debug, n) ∈ logs)
    ∧ (∀ n d, (n, Entry.dir d) ∈ tc → ignoredName n = false →
        hasMissionFile d = false → (Sev.warning, n) ∈ logs) := by
  induction tc generalizing tc2 built logs with
  | nil =>
    simp only [processTemplates, Option.some.injEq, Prod.mk.injEq] at h
    obtain ⟨rfl, rfl, rfl⟩ := h
    refine ⟨rfl, ?_, ?_⟩ <;> intro n x hm <;> simp at hm
  | cons p rest ih =>
    obtain ⟨n, e⟩ := p
    by_cases hi : ignoredName n = true
    · cases hp : processTemplates sc b rest with
      | none => simp [processTemplates, hi, hp] at h
      | some tr =>
        obtain ⟨r, ns, ls⟩ := tr
        simp only [processTemplates, hi, if_true, hp, Option.some.injEq,
          Prod.mk.injEq] at h
        obtain ⟨rfl, rfl, rfl⟩ := h
        obtain ⟨ih1, ih2, ih3⟩ := ih _ _ _ hp
        refine ⟨?_, ?_, ?_⟩
        · simpa [List.filter_cons, validTemplate, hi] using ih1
        · intro n2 c hm hig
          rcases List.mem_cons.mp hm with heq | hmem
          · injection heq with he1 he2
            subst he1
            rw [hi] at hig
            simp at hig
          · exact ih2 n2 c hmem hig
        · intro n2 d hm hig hmiss
          rcases List.mem_cons.mp hm with heq | hmem
          · injection heq with he1 he2
            subst he1
            rw [hi] at hig
            simp at hig
          · exact ih3 n2 d hmem hig hmiss
    · cases e with
      | file c =>
        cases hp : processTemplates sc b rest with
        | none => simp [processTemplates, hi, hp] at h
        | some tr =>
          obtain ⟨r, ns, ls⟩ := tr
          simp only [processTemplates, hi, if_false, hp, Option.some.injEq,
            Prod.mk.injEq] at h
          obtain ⟨rfl, rfl, rfl⟩ := h
          obtain ⟨ih1, ih2, ih3⟩ := ih _ _ _ hp
          refine ⟨?_, ?_, ?_⟩
          · simpa [List.filter_cons, validTemplate, hi] using ih1
          · intro n2 c2 hm hig
            rcases List.mem_cons.mp hm with heq | hmem
            · injection heq with he1 he2
              subst he1
              exact List.mem_cons_self _ _
            · exact List.mem_cons_of_mem _ (ih2 n2 c2 hmem hig)
          · intro n2 d hm hig hmiss
            rcases List.mem_cons.mp hm with heq | hmem
            · injection heq with he1 he2
              exact Entry.noConfusion he2
            · exact List.mem_cons_of_mem _ (ih3 n2 d hmem hig hmiss)
      | dir d =>
        by_cases hmiss : hasMissionFile d = true
        · cases hb : build_template sc b d with
          | none => simp [processTemplates, hi, hmiss, hb] at h
          | some d2 =>
            cases hp : processTemplates sc b rest with
            | none => simp [processTemplates, hi, hmiss, hb, hp] at h
            | some tr =>
              obtain ⟨r, ns, ls⟩ := tr
              simp only [processTemplates, hi, if_false, hmiss, if_true, hb, hp,
                Option.some.injEq, Prod.mk.injEq] at h
              obtain ⟨rfl, rfl, rfl⟩ := h
              obtain ⟨ih1, ih2, ih3⟩ := ih _ _ _ hp
              refine ⟨?_, ?_, ?_⟩
              · simp only [List.filter_cons, validTemplate, hi, hmiss]
                simp [ih1]
              · intro n2 c2 hm hig
                rcases List.mem_cons.mp hm with heq | hmem
                · injection heq with he1 he2
                  exact Entry.noConfusion he2
                · exact ih2 n2 c2 hmem hig
              · intro n2 d3 hm hig hm2
                rcases List.mem_cons.mp hm with heq | hmem
                · injection heq with he1 he2
                  injection he2 with he3
                  subst he3
                  rw [hmiss] at hm2
                  simp at hm2
                · exact ih3 n2 d3 hmem hig hm2
        · cases hp : processTemplates sc b rest with
          | none => simp [processTemplates, hi, hmiss, hp] at h
          | some tr =>
            obtain ⟨r, ns, ls⟩ := tr
            simp only [processTemplates, hi, if_false, hmiss, hp,
              Option.some.injEq, Prod.mk.injEq] at h
            obtain ⟨rfl, rfl, rfl⟩ := h
            obtain ⟨ih1, ih2, ih3⟩ := ih _ _ _ hp
            refine ⟨?_, ?_, ?_⟩
            · simpa [List.filter_cons, validTemplate, hi, hmiss] using ih1
            · intro n2 c2 hm hig
              rcases List.mem_cons.mp hm with heq | hmem
              · injection heq with he1 he2
                exact Entry.noConfusion he2
              · exact List.mem_cons_of_mem _ (ih2 n2 c2 hmem hig)
            · intro n2 d3 hm hig hm2
              rcases List.mem_cons.mp hm with heq | hmem
              · injection heq with he1 he2
                subst he1
                exact List.mem_cons_self _ _
              · exact List.mem_cons_of_mem _ (ih3 n2 d3 hmem hig hm2)

/-- Witness for C7: one valid template among an ignored entry, a plain file
and a directory without the marker. -/
theorem C7_witness :
    (["Desert"] =
      (([(".git", Entry.dir []), ("notes.txt", Entry.file []),
        ("Empty", Entry.dir []),
        ("Desert", Entry.dir [("mission.sqm", Entry.file ['7'])])].filter
          validTemplate).map Prod.fst))
    ∧ (Sev.debug, "notes.txt") ∈ [(Sev.debug, "notes.txt"), (Sev.warning, "Empty")]
    ∧ (Sev.warning, "Empty") ∈ [(Sev.debug, "notes.txt"), (Sev.warning, "Empty")] := by
  obtain ⟨h1, h2, h3⟩ :=
    C7_template_discovery [("config.cpp", Entry.file ['1'])]
      [("description.ext", Entry.file ['2'])]
      [(".git", Entry.dir []), ("notes.txt", Entry.file []),
        ("Empty", Entry.dir []),
        ("Desert", Entry.dir [("mission.sqm", Entry.file ['7'])])]
      [(".git", Entry.dir []), ("notes.txt", Entry.file []),
        ("Empty", Entry.dir []),
        ("Desert", Entry.dir
          [("mission.sqm", Entry.file ['7']),
           (SCRIPTS_DIR, Entry.dir [("config.cpp", Entry.file ['1'])]),
           ("description.ext", Entry.file ['2'])])]
      ["Desert"] [(Sev.debug, "notes.txt"), (Sev.warning, "Empty")] rfl
  exact ⟨h1,
    h2 "notes.txt" [] (by simp) rfl,
    h3 "Empty" [] (by simp) rfl rfl⟩

/-- C8: version stamping.  First conjunct: whenever the validator exits
(for example because the scripts root lacks `Armory`), the run aborts and
no manifest is written or updated.  Second conjunct: when the run
completes, the final listing of the templates root binds the fixed name
`scripts_version.txt` — regardless of any pre-existing entry of that name,
which is overwritten — to a file holding the fixed header line followed by
the resolved version label on its own line; by construction of `main_run`
this write happens once, after the whole template sequence was
processed. -/
theorem C8_version_stamp :
    (∀ (fs : FSChecks) (mv : Option (List Char)) (git : List Char)
        (sc b : FsDir) (tc : List (String × Entry)),
        checksExit fs ≠ none → main_run fs mv git sc b tc = none)
    ∧ (∀ (fs : FSChecks) (mv : Option (List Char)) (git : List Char)
        (sc b : FsDir) (tc tc2 : List (String × Entry)) (built : List String)
        (logs : List (Sev × String)),
        main_run fs mv git sc b tc = some (tc2, built, logs) →
        ∃ ver, resolve_version mv git = some ver
          ∧ lookupE tc2 SCRIPTS_VERSION_FILE
            = some (Entry.file (manifestContent ver))) := by
  constructor
  · intro fs mv git sc b tc hne
    cases hex : (do_filesystem_checks fs).2 with
    | none => exact absurd hex hne
    | some k => simp [main_run, hex]
  · intro fs mv git sc b tc tc2 built logs h
    cases hex : (do_filesystem_checks fs).2 with
    | some k => simp [main_run, hex] at h
    | none =>
      cases hv : resolve_version mv git with
      | none => simp [main_run, hex, hv] at h
      | some ver =>
        cases hp : processTemplates sc b tc with
        | none => simp [main_run, hex, hv, hp] at h
        | some tr =>
          obtain ⟨tc3, bu, lg⟩ := tr
          simp only [main_run, hex, hv, hp, Option.some.injEq,
            Prod.mk.injEq] at h
          obtain ⟨rfl, rfl, rfl⟩ := h
          exact ⟨ver, rfl, lookupE_setE_self tc3 SCRIPTS_VERSION_FILE _⟩

/-- Witness for C8: a complete concrete run writes the manifest with the
manual version label. -/
theorem C8_witness :
    ∃ ver, resolve_version (some ['1']) [] = some ver
      ∧ lookupE [(SCRIPTS_VERSION_FILE, Entry.file (manifestContent ['1']))]
          SCRIPTS_VERSION_FILE = some (Entry.file (manifestContent ver)) :=
  C8_version_stamp.2 ⟨true, true, true, true, true, true, true, true, true⟩
    (some ['1']) [] [] [] []
    [(SCRIPTS_VERSION_FILE, Entry.file (manifestContent ['1']))] [] [] rfl

end Magify
